import Mathlib

/-!
# Verification of the CS2 inventory exporter pipeline

Shallow embedding of `src/app/api/get-inventory/route.js` (second, "robust"
variant, lines 114-259) and of the legacy backend variant in
`src/unnamed/part_000` (lines 157-236).  JavaScript strings are modelled as
lists of characters (`Str`); JavaScript `undefined`/missing values are
modelled with `Option`; the two network calls (alias lookup and inventory
fetch) are modelled by passing the would-be response of each service into
the pipeline function, together with explicit call counters.
-/

/-- A JavaScript string, modelled as its list of characters. -/
abbrev Str := List Char

/-- The whitespace characters relevant to `String.prototype.trim` on the
inputs of this pipeline (ASCII whitespace). -/
def isWS (c : Char) : Bool :=
  c = ' ' || c = '\t' || c = '\n' || c = '\r'

/-- `url.trim()`: remove leading and trailing whitespace. -/
def jsTrim (s : Str) : Str :=
  ((s.dropWhile isWS).reverse.dropWhile isWS).reverse

/-- `cleanUrl.replace(/\/$/, '')`: drop a single trailing `'/'` if present
(route.js line 125). -/
def dropTrailingSlash (s : Str) : Str :=
  if s.getLast? = some '/' then s.dropLast else s

/-- `cleanUrl.split('/')`: JavaScript split on the one-character separator
`'/'` (route.js line 126).  The empty string splits to `[""]`, and empty
segments are kept. -/
def splitSlash : Str → List Str
  | [] => [[]]
  | c :: rest =>
    match splitSlash rest with
    | [] => [[]]
    | p :: ps => if c = '/' then [] :: p :: ps else (c :: p) :: ps

/-- `parts.indexOf(x)`: index of the first occurrence, `none` for `-1`
(route.js lines 129 and 134). -/
def jsIndexOf (l : List Str) (x : Str) : Option Nat :=
  match l with
  | [] => none
  | y :: ys => if y = x then some 0 else (jsIndexOf ys x).map (· + 1)

/-- The `'profiles'` path-segment marker. -/
def profilesMarker : Str := "profiles".toList

/-- The `'id'` path-segment marker. -/
def idMarker : Str := "id".toList

/-- `if (parts.length > 0) return parts[parts.length - 1]; return null`
(route.js lines 140-142, 146). -/
def fallbackLast (parts : List Str) : Option Str :=
  if parts.length > 0 then parts.getLast? else none

/-- The `'id'` branch and the fallback of `extractIdentifier`
(route.js lines 134-142). -/
def extractAfterId (parts : List Str) : Option Str :=
  match jsIndexOf parts idMarker with
  | some j => if j + 1 < parts.length then parts[j+1]? else fallbackLast parts
  | none => fallbackLast parts

/-- The marker selection of `extractIdentifier` over the split segments
(route.js lines 129-142). -/
def extractFromParts (parts : List Str) : Option Str :=
  match jsIndexOf parts profilesMarker with
  | some i => if i + 1 < parts.length then parts[i+1]? else extractAfterId parts
  | none => extractAfterId parts

/-- `extractIdentifier` (route.js lines 122-147, the split-based variant):
trim, drop one trailing slash, split on `'/'`; return the segment after the
first `'profiles'`, else after the first `'id'`, else the last segment. -/
def extractIdentifier (url : Str) : Option Str :=
  extractFromParts (splitSlash (dropTrailingSlash (jsTrim url)))

/-- Index of the last occurrence of a marker segment, if any. -/
def lastMarkerIdx (parts : List Str) : Option Nat :=
  match (jsIndexOf parts.reverse profilesMarker), (jsIndexOf parts.reverse idMarker) with
  | some a, some b => some (parts.length - 1 - min a b)
  | some a, none => some (parts.length - 1 - a)
  | none, some b => some (parts.length - 1 - b)
  | none, none => none

/-- Modelled from the spec: the extractor as the specification sentence
describes it — "if a known path segment marker (`profiles` or `id`) is
present, return the segment immediately following the *last* such marker;
otherwise return the final non-empty segment".  Used only to compare the
spec's wording against the code's `extractIdentifier`. -/
def extractIdentifierSpec (url : Str) : Option Str :=
  let parts := splitSlash (dropTrailingSlash (jsTrim url))
  match lastMarkerIdx parts with
  | some i => parts[i+1]?
  | none => (parts.filter (fun p => ¬ p.isEmpty)).getLast?

/-- `/^\d{17}$/.test(identifier)` (route.js line 190): exactly 17 ASCII
decimal digits. -/
def canonicalRe (s : Str) : Bool :=
  s.length = 17 && s.all Char.isDigit

/-! ## The tabular (CSV) encoder, `convertToCSV` (route.js lines 150-163) -/

/-- One record passed to `convertToCSV`: a JavaScript object, i.e. an ordered
association list of distinct keys to string values (every value placed into
the CSV records by this program is a string or is stringified on render). -/
abbrev Row := List (Str × Str)

/-- `Object.keys(row)`: the keys in insertion order. -/
def headersOf (row : Row) : List Str := row.map Prod.fst

/-- `row[header]`: property access, `none` when the field is absent. -/
def jsLookup (row : Row) (k : Str) : Option Str :=
  (row.find? (fun p => p.1 = k)).map Prod.snd

/-- `'' + row[header]` (route.js line 157): string coercion; an absent field
(`undefined`) stringifies to the literal `"undefined"`. -/
def cellString (row : Row) (k : Str) : Str :=
  match jsLookup row k with
  | some v => v
  | none => "undefined".toList

/-- `.replace(/"/g, '""')` (route.js line 157): double every double-quote
character (global single-character replacement). -/
def escQuotes : Str → Str
  | [] => []
  | c :: rest => if c = '"' then '"' :: '"' :: escQuotes rest else c :: escQuotes rest

/-- `` `"${escaped}"` `` (route.js line 158): wrap the escaped value in
double quotes. -/
def quoteField (s : Str) : Str := '"' :: (escQuotes s ++ ['"'])

/-- `Array.prototype.join(sep)` for a one-or-more character separator
(route.js lines 154, 160, 162). -/
def joinSep (sep : Str) : List Str → Str
  | [] => []
  | [p] => p
  | p :: q :: ps => p ++ sep ++ joinSep sep (q :: ps)

/-- One encoded data line: every declared column rendered, coerced and
quoted, comma-joined (route.js lines 156-160). -/
def rowLine (headers : List Str) (row : Row) : Str :=
  joinSep [','] (headers.map (fun h => quoteField (cellString row h)))

/-- `convertToCSV` (route.js lines 151-163): empty input encodes to the
empty string; otherwise the header line (the first row's keys, unquoted,
comma-joined) followed by one line per row, all newline-joined. -/
def convertToCSV : List Row → Str
  | [] => []
  | r0 :: rest =>
    let headers := headersOf r0
    let csvRows :=
      (r0 :: rest).foldl (fun acc row => acc ++ [rowLine headers row])
        [joinSep [','] headers]
    joinSep ['\n'] csvRows

/-- Inverse of quote doubling: collapse each doubled double-quote. -/
def unescQuotes : Str → Str
  | [] => []
  | [c] => [c]
  | c :: d :: rest =>
    if c = '"' ∧ d = '"' then c :: unescQuotes rest
    else c :: unescQuotes (d :: rest)

/-- `l` occurs contiguously inside `s`. -/
def containsSub (x s : Str) : Prop := ∃ p q, s = p ++ x ++ q

/-! ## Data model of the snapshot inventory backend (route.js lines 204-242) -/

/-- One entry of `inventoryData.assets`: the fields this pipeline reads. -/
structure Asset where
  classid : Str
  instanceid : Str
  assetid : Str
deriving DecidableEq

/-- One entry of `inventoryData.descriptions`: the fields this pipeline
reads.  `market_hash_name` and `type` may be absent; the tradable and
marketable flags are the numeric 0/1 flags of the upstream JSON. -/
structure Desc where
  classid : Str
  instanceid : Str
  market_hash_name : Option Str
  type : Option Str
  tradable : Nat
  marketable : Nat
deriving DecidableEq

/-- `` `${classid}_${instanceid}` `` (route.js lines 229, 232). -/
def compositeKey (c i : Str) : Str := c ++ '_' :: i

/-- The composite key of a description. -/
def descKey (d : Desc) : Str := compositeKey d.classid d.instanceid

/-- The composite key of an asset. -/
def assetKey (a : Asset) : Str := compositeKey a.classid a.instanceid

/-- `new Map(descriptions.map(d => [key, d])).get(k)` (route.js lines
229-232): in a JavaScript `Map` built from a list of entries, a later entry
overwrites an earlier one with the same key, so `get` returns the last
matching description. -/
def mapGet (ds : List Desc) (k : Str) : Option Desc :=
  ds.reverse.find? (fun d => descKey d = k)

/-- JavaScript `x || dflt` for an optional string `x`: `undefined` and the
empty string are falsy (route.js lines 234-235). -/
def jsOrStr (v : Option Str) (dflt : Str) : Str :=
  match v with
  | some s => if s.isEmpty then dflt else s
  | none => dflt

/-- JavaScript truthiness of `description?.flag` for a numeric flag:
false when the description is absent or the flag is `0`
(route.js lines 236-237). -/
def jsTruthyFlag (v : Option Nat) : Bool :=
  match v with
  | some n => n ≠ 0
  | none => false

/-- One joined record of `itemsForCSV` (route.js lines 231-242): holding
fields merged with description fields, with literal defaults when no
description matches the composite key. -/
def joinRow (ds : List Desc) (a : Asset) : Row :=
  let d := mapGet ds (assetKey a)
  [ ("Item_Name".toList, jsOrStr (d.bind Desc.market_hash_name) "Unknown Item".toList),
    ("Type".toList, jsOrStr (d.bind Desc.type) "Unknown".toList),
    ("Tradable".toList, if jsTruthyFlag (d.map Desc.tradable) then "Yes".toList else "No".toList),
    ("Marketable".toList, if jsTruthyFlag (d.map Desc.marketable) then "Yes".toList else "No".toList),
    ("Class_ID".toList, a.classid),
    ("Instance_ID".toList, a.instanceid),
    ("Asset_ID".toList, a.assetid) ]

/-- `inventoryData.assets.map(asset => {...})` (route.js lines 231-242). -/
def itemsForCSV (assets : List Asset) (ds : List Desc) : List Row :=
  assets.map (joinRow ds)

/-! ## The request pipeline (route.js lines 166-259, snapshot backend) -/

/-- The alias-lookup (vanity resolution) service response
(route.js lines 193-199): a numeric success flag and, on success flag 1,
the canonical id. -/
structure VanityResp where
  success : Int
  steamid : Str
deriving DecidableEq

/-- The JSON body of the snapshot inventory endpoint: the two collections
this pipeline reads, each possibly absent (route.js line 221). -/
structure InvBody where
  assets : Option (List Asset)
  descriptions : Option (List Desc)
deriving DecidableEq

/-- Outcome of the inventory `fetch` (route.js lines 208-219): either a
network failure (the promise rejects, landing in the `catch`), or an HTTP
response with a status code and a parsed JSON body (`none` models a JSON
`null` body). -/
inductive InvOutcome where
  | netError : InvOutcome
  | resp (status : Nat) (body : Option InvBody) : InvOutcome
deriving DecidableEq

/-- `Response.ok`: status in the range 200-299. -/
def respOk (status : Nat) : Bool := 200 ≤ status && status < 300

/-- The response the route returns: a JSON error payload with a status and
message, or a CSV file payload with status 200 and a suggested filename. -/
inductive ApiResult where
  | errorRes (status : Nat) (message : Str) : ApiResult
  | fileRes (status : Nat) (csv : Str) (fileName : Str) : ApiResult
deriving DecidableEq

/-- The observable outcome of one request: the response plus how many times
each external service was invoked. -/
structure PostOut where
  result : ApiResult
  vanityCalls : Nat
  invCalls : Nat
deriving DecidableEq

/-- JavaScript falsiness of an optional string (absent or empty). -/
def jsFalsyStr (v : Option Str) : Bool :=
  match v with
  | some s => s.isEmpty
  | none => true

def msgNoKey : Str := "Steam API key is not configured on the server.".toList
def msgUrlRequired : Str := "Profile URL is required.".toList
def msgNoIdentifier : Str := "Could not extract a valid identifier from the URL.".toList
def msgVanityFail : Str := "Could not find a Steam ID for this profile URL.".toList
def msgUnreadable : Str := "Could not read inventory data. It might be empty or there is a temporary Steam API issue.".toList
def msgEmptyInv : Str := "This inventory is empty.".toList
def msgUnexpected : Str := "An unexpected server error occurred.".toList

/-- The decimal rendering of a number interpolated into a template string. -/
def natStr (n : Nat) : Str := (toString n).toList

/-- `` `Inventory is private or profile is invalid. Status: ${status}` ``
(route.js line 216). -/
def msgPrivate (status : Nat) : Str :=
  "Inventory is private or profile is invalid. Status: ".toList ++ natStr status

/-- `` `cs2_inventory_${steamId}.csv` `` (route.js line 245). -/
def fileNameFor (steamId : Str) : Str :=
  "cs2_inventory_".toList ++ steamId ++ ".csv".toList

/-- The identifier resolution step (route.js lines 190-200): a 17-digit
token is used unchanged with no lookup; otherwise one alias lookup is made,
whose non-1 success flag is a 404 resolution failure.  Returns the resolved
id or the error response, together with the number of lookup calls. -/
def resolveSteamId (identifier : Str) (vanity : VanityResp) :
    Except (Nat × Str) Str × Nat :=
  if canonicalRe identifier then (Except.ok identifier, 0)
  else if vanity.success ≠ 1 then (Except.error (404, msgVanityFail), 1)
  else (Except.ok vanity.steamid, 1)

/-- The inventory fetch, join and packaging tail of the pipeline
(route.js lines 204-253), given the resolved id and the count of lookup
calls already made. -/
def finishWithSteamId (steamId : Str) (vc : Nat) (inv : InvOutcome) : PostOut :=
  match inv with
  | InvOutcome.netError => ⟨ApiResult.errorRes 500 msgUnexpected, vc, 1⟩
  | InvOutcome.resp status body =>
    if ¬ respOk status then ⟨ApiResult.errorRes 403 (msgPrivate status), vc, 1⟩
    else
      match body with
      | none => ⟨ApiResult.errorRes 404 msgUnreadable, vc, 1⟩
      | some b =>
        match b.assets, b.descriptions with
        | some assets, some ds =>
          if assets.length = 0 then ⟨ApiResult.errorRes 404 msgEmptyInv, vc, 1⟩
          else
            ⟨ApiResult.fileRes 200 (convertToCSV (itemsForCSV assets ds))
              (fileNameFor steamId), vc, 1⟩
        | _, _ => ⟨ApiResult.errorRes 404 msgUnreadable, vc, 1⟩

/-- `POST` (route.js lines 166-259): the full request pipeline over the
snapshot backend.  `apiKey` is the module-level configuration value,
`profileUrl` the request body field, `vanity` and `inv` the responses the
two external services would give if called. -/
def POST (apiKey : Option Str) (profileUrl : Option Str)
    (vanity : VanityResp) (inv : InvOutcome) : PostOut :=
  if jsFalsyStr apiKey then ⟨ApiResult.errorRes 500 msgNoKey, 0, 0⟩
  else if jsFalsyStr profileUrl then ⟨ApiResult.errorRes 400 msgUrlRequired, 0, 0⟩
  else
    match profileUrl with
    | none => ⟨ApiResult.errorRes 400 msgUrlRequired, 0, 0⟩
    | some url =>
      match extractIdentifier url with
      | none => ⟨ApiResult.errorRes 400 msgNoIdentifier, 0, 0⟩
      | some identifier =>
        if identifier.isEmpty then ⟨ApiResult.errorRes 400 msgNoIdentifier, 0, 0⟩
        else
          match resolveSteamId identifier vanity with
          | (Except.error e, vc) => ⟨ApiResult.errorRes e.1 e.2, vc, 0⟩
          | (Except.ok steamId, vc) => finishWithSteamId steamId vc inv

/-! ## The legacy inventory backend (src/unnamed/part_000, lines 189-229) -/

/-- One entry of `result.items` on the legacy backend: economy-internal
numeric fields only. -/
structure LItem where
  id : Nat
  original_id : Nat
  defindex : Nat
  level : Nat
  quality : Nat
  quantity : Nat
deriving DecidableEq

/-- The legacy result envelope: numeric status and the items array,
possibly absent (part_000 lines 199-205). -/
structure LegacyResult where
  status : Int
  items : Option (List LItem)
deriving DecidableEq

/-- Outcome of the legacy inventory `fetch` (part_000 lines 189-197). -/
inductive LegacyOutcome where
  | netError : LegacyOutcome
  | resp (status : Nat) (result : Option LegacyResult) : LegacyOutcome
deriving DecidableEq

/-- `` `Failed to fetch from the official Steam API. Status: ${status}` ``
(part_000 line 194). -/
def msgLegacyFetchFail (status : Nat) : Str :=
  "Failed to fetch from the official Steam API. Status: ".toList ++ natStr status

def msgLegacyPrivate : Str :=
  "Inventory is private or the profile is invalid. (Checked with official API)".toList

/-- `` `cs2_inventory_basic_${steamId}.csv` `` (part_000 line 221). -/
def legacyFileName (steamId : Str) : Str :=
  "cs2_inventory_basic_".toList ++ steamId ++ ".csv".toList

/-- One CSV record of the legacy backend (part_000 lines 209-218). -/
def legacyRow (item : LItem) : Row :=
  [ ("Item_ID".toList, natStr item.id),
    ("Original_ID".toList, natStr item.original_id),
    ("Def_Index".toList, natStr item.defindex),
    ("Level".toList, natStr item.level),
    ("Quality".toList, natStr item.quality),
    ("Quantity".toList, natStr item.quantity) ]

/-- The legacy backend's fetch, validation and packaging tail
(part_000 lines 189-229): every non-ok transport response is a 500; a
missing or non-1 status envelope is a 403; missing or empty items are a
404; otherwise the CSV file response. -/
def legacyFinish (steamId : Str) (inv : LegacyOutcome) : ApiResult :=
  match inv with
  | LegacyOutcome.netError => ApiResult.errorRes 500 msgUnexpected
  | LegacyOutcome.resp status result =>
    if ¬ respOk status then ApiResult.errorRes 500 (msgLegacyFetchFail status)
    else
      match result with
      | none => ApiResult.errorRes 403 msgLegacyPrivate
      | some r =>
        if r.status ≠ 1 then ApiResult.errorRes 403 msgLegacyPrivate
        else
          match r.items with
          | none => ApiResult.errorRes 404 msgEmptyInv
          | some items =>
            if items.length = 0 then ApiResult.errorRes 404 msgEmptyInv
            else
              ApiResult.fileRes 200 (convertToCSV (items.map legacyRow))
                (legacyFileName steamId)

/-! ## Claims about the resolver and pipeline statuses -/

/-- C1: a token matching `^\d{17}$` is returned unchanged as the canonical
identifier, and the alias-lookup service is not invoked on that path. -/
theorem canonical_token_short_circuits (t : Str) (v : VanityResp)
    (h : canonicalRe t = true) :
    resolveSteamId t v = (Except.ok t, 0) := by
  simp [resolveSteamId, h]

theorem canonical_token_short_circuits_witness :
    resolveSteamId "76561197960287930".toList ⟨0, []⟩
      = (Except.ok "76561197960287930".toList, 0) :=
  canonical_token_short_circuits _ _ (by decide)

/-- C8: a non-empty, non-canonical token causes exactly one alias-lookup
call, and a lookup success flag other than 1 terminates the pipeline with
status 404 and the resolution-failure message, with no retry. -/
theorem noncanonical_token_single_lookup (t : Str) (v : VanityResp)
    (hne : t ≠ []) (hnc : canonicalRe t = false) :
    (resolveSteamId t v).2 = 1 ∧
    (v.success ≠ 1 →
      (resolveSteamId t v).1 = Except.error (404, msgVanityFail) ∧
      ∀ (key url : Str) (inv : InvOutcome),
        key ≠ [] → extractIdentifier url = some t →
        POST (some key) (some url) v inv =
          ⟨ApiResult.errorRes 404 msgVanityFail, 1, 0⟩) := by
  refine ⟨?_, fun hsucc => ⟨?_, ?_⟩⟩
  · simp only [resolveSteamId, hnc, Bool.false_eq_true, if_false]
    split <;> rfl
  · simp [resolveSteamId, hnc, hsucc]
  · intro key url inv hkey hext
    have hkey' : jsFalsyStr (some key) = false := by
      cases key with
      | nil => exact absurd rfl hkey
      | cons a l => rfl
    have hurl : url ≠ [] := by
      intro h
      subst h
      rw [show extractIdentifier ([] : Str) = some [] from by decide] at hext
      exact hne (Option.some.inj hext).symm
    have hurl' : jsFalsyStr (some url) = false := by
      cases url with
      | nil => exact absurd rfl hurl
      | cons a l => rfl
    have htf : t.isEmpty = false := by
      cases t with
      | nil => exact absurd rfl hne
      | cons a l => rfl
    simp [POST, hkey', hurl', hext, htf, resolveSteamId, hnc, hsucc]

theorem noncanonical_token_single_lookup_witness :
    POST (some "k".toList) (some "https://example.com/id/myalias".toList)
        ⟨42, []⟩ InvOutcome.netError =
      ⟨ApiResult.errorRes 404 msgVanityFail, 1, 0⟩ :=
  ((noncanonical_token_single_lookup "myalias".toList ⟨42, []⟩ (by decide)
      (by decide)).2 (by decide)).2 _ _ _ (by decide) (by decide)

/-- C10: when the API key is not configured, the endpoint returns the 500
configuration error regardless of the request body — in particular a
missing input reference still yields 500, not 400. -/
theorem missing_key_precedes_validation (apiKey profileUrl : Option Str)
    (v : VanityResp) (inv : InvOutcome) (h : jsFalsyStr apiKey = true) :
    POST apiKey profileUrl v inv = ⟨ApiResult.errorRes 500 msgNoKey, 0, 0⟩ := by
  simp [POST, h]

theorem missing_key_precedes_validation_witness :
    POST none none ⟨1, []⟩ InvOutcome.netError
      = ⟨ApiResult.errorRes 500 msgNoKey, 0, 0⟩ :=
  missing_key_precedes_validation none none ⟨1, []⟩ InvOutcome.netError (by decide)

/-- C9: a transport-level successful inventory fetch with zero holdings
(empty `assets` on the snapshot backend, missing or empty `items` on the
legacy backend) terminates with status 404 and the empty-inventory message,
and no file payload is produced. -/
theorem empty_inventory_yields_404 (sid : Str) (vc st : Nat) (ds : List Desc)
    (r : LegacyResult) (hok : respOk st = true) :
    finishWithSteamId sid vc (InvOutcome.resp st (some ⟨some [], some ds⟩)) =
      ⟨ApiResult.errorRes 404 msgEmptyInv, vc, 1⟩ ∧
    (r.status = 1 → (r.items = none ∨ r.items = some []) →
      legacyFinish sid (LegacyOutcome.resp st (some r)) =
        ApiResult.errorRes 404 msgEmptyInv) := by
  constructor
  · simp [finishWithSteamId, hok]
  · intro h1 h2
    rcases h2 with h2 | h2 <;> simp [legacyFinish, hok, h1, h2]

theorem empty_inventory_yields_404_witness :
    finishWithSteamId "76561197960287930".toList 0
        (InvOutcome.resp 200 (some ⟨some [], some []⟩)) =
      ⟨ApiResult.errorRes 404 msgEmptyInv, 0, 1⟩ ∧
    legacyFinish "76561197960287930".toList
        (LegacyOutcome.resp 200 (some ⟨1, some []⟩)) =
      ApiResult.errorRes 404 msgEmptyInv :=
  ⟨(empty_inventory_yields_404 _ 0 200 [] ⟨1, some []⟩ (by decide)).1,
   (empty_inventory_yields_404 "76561197960287930".toList 0 200 [] ⟨1, some []⟩
      (by decide)).2 rfl (Or.inr rfl)⟩

/-- C3 fails on the code: a transport-level 404 response from the snapshot
inventory backend is classified access-denied and yields response status
403, not 404, and a 502 response also yields 403, not 500. -/
theorem transport_404_not_classified_not_found :
    finishWithSteamId "76561197960287930".toList 0 (InvOutcome.resp 404 none) =
      ⟨ApiResult.errorRes 403 (msgPrivate 404), 0, 1⟩ ∧
    finishWithSteamId "76561197960287930".toList 0 (InvOutcome.resp 502 none) =
      ⟨ApiResult.errorRes 403 (msgPrivate 502), 0, 1⟩ ∧
    (403 : Nat) ≠ 404 ∧ (403 : Nat) ≠ 500 := by
  refine ⟨by decide, by decide, by decide, by decide⟩

/-- C3 amended: on the snapshot backend every transport-level non-ok HTTP
response — 404-class and 5xx alike — is classified access-denied and yields
response status 403, while a network failure yields 500; on the legacy
backend every transport-level non-ok response yields 500.  No transport
condition is classified not-found. -/
theorem transport_error_classification (sid : Str) (vc st : Nat)
    (body : Option InvBody) (r : Option LegacyResult)
    (hnok : respOk st = false) :
    finishWithSteamId sid vc (InvOutcome.resp st body) =
      ⟨ApiResult.errorRes 403 (msgPrivate st), vc, 1⟩ ∧
    finishWithSteamId sid vc InvOutcome.netError =
      ⟨ApiResult.errorRes 500 msgUnexpected, vc, 1⟩ ∧
    legacyFinish sid (LegacyOutcome.resp st r) =
      ApiResult.errorRes 500 (msgLegacyFetchFail st) ∧
    legacyFinish sid LegacyOutcome.netError =
      ApiResult.errorRes 500 msgUnexpected := by
  exact ⟨by simp [finishWithSteamId, hnok], rfl,
    by simp [legacyFinish, hnok], rfl⟩

theorem transport_error_classification_witness :
    finishWithSteamId [] 0 (InvOutcome.resp 404 none) =
      ⟨ApiResult.errorRes 403 (msgPrivate 404), 0, 1⟩ ∧
    legacyFinish [] (LegacyOutcome.resp 503 none) =
      ApiResult.errorRes 500 (msgLegacyFetchFail 503) :=
  ⟨(transport_error_classification [] 0 404 none none (by decide)).1,
   (transport_error_classification [] 0 503 none none (by decide)).2.2.1⟩

/-- C4 fails on the code: for a holding with no matching description, the
name field defaults to the literal `"Unknown Item"`, not `"Unknown"`. -/
theorem unmatched_holding_name_default_is_unknown_item :
    jsLookup (joinRow [] ⟨"c".toList, "i".toList, "x".toList⟩) "Item_Name".toList
      = some "Unknown Item".toList ∧
    "Unknown Item".toList ≠ "Unknown".toList := by
  exact ⟨by decide, by decide⟩

/-- C4 amended: a holding whose composite key has no matching description
still produces one row, whose name defaults to the literal
`"Unknown Item"`, whose type defaults to `"Unknown"`, and whose tradable
and marketable fields default to `"No"`; the join produces exactly one row
per holding, in the input asset order. -/
theorem unmatched_holding_row_defaults (ds : List Desc) (assets : List Asset)
    (a : Asset) (i : Nat) (hmiss : mapGet ds (assetKey a) = none) :
    joinRow ds a =
      [ ("Item_Name".toList, "Unknown Item".toList),
        ("Type".toList, "Unknown".toList),
        ("Tradable".toList, "No".toList),
        ("Marketable".toList, "No".toList),
        ("Class_ID".toList, a.classid),
        ("Instance_ID".toList, a.instanceid),
        ("Asset_ID".toList, a.assetid) ] ∧
    (itemsForCSV assets ds)[i]? = (assets[i]?).map (joinRow ds) := by
  constructor
  · simp [joinRow, hmiss, jsOrStr, jsTruthyFlag]
  · simp [itemsForCSV]

theorem unmatched_holding_row_defaults_witness :
    joinRow [] ⟨"c".toList, "i".toList, "x".toList⟩ =
      [ ("Item_Name".toList, "Unknown Item".toList),
        ("Type".toList, "Unknown".toList),
        ("Tradable".toList, "No".toList),
        ("Marketable".toList, "No".toList),
        ("Class_ID".toList, "c".toList),
        ("Instance_ID".toList, "i".toList),
        ("Asset_ID".toList, "x".toList) ] :=
  (unmatched_holding_row_defaults [] [] ⟨"c".toList, "i".toList, "x".toList⟩ 0
    (by decide)).1

/-- C7: the empty row sequence encodes to the empty string, not to a
header-only document. -/
theorem empty_rows_encode_to_empty_string : convertToCSV [] = [] := rfl

/-! ## Encoding lemmas for the tabular encoder claims -/

lemma escQuotes_eq_nil {s : Str} (h : escQuotes s = []) : s = [] := by
  cases s with
  | nil => rfl
  | cons c t =>
    exfalso
    by_cases hc : c = '"' <;> simp [escQuotes, hc] at h

lemma unescQuotes_escQuotes (s : Str) : unescQuotes (escQuotes s) = s := by
  induction s with
  | nil => rfl
  | cons c t ih =>
    by_cases hc : c = '"'
    · subst hc
      simp only [escQuotes, if_pos rfl]
      simpa [unescQuotes] using ih
    · simp only [escQuotes, if_neg hc]
      cases he : escQuotes t with
      | nil =>
        have : t = [] := escQuotes_eq_nil he
        subst this
        rfl
      | cons d u =>
        rw [he] at ih
        simp [unescQuotes, hc, ih]

lemma count_escQuotes_quote (s : Str) :
    (escQuotes s).count '"' = 2 * s.count '"' := by
  induction s with
  | nil => rfl
  | cons c t ih =>
    by_cases hc : c = '"'
    · simp [escQuotes, hc, List.count_cons, ih]
      omega
    · simp [escQuotes, hc, List.count_cons, ih]

lemma count_escQuotes_other (s : Str) (c : Char) (hc : c ≠ '"') :
    (escQuotes s).count c = s.count c := by
  induction s with
  | nil => rfl
  | cons b t ih =>
    by_cases hb : b = '"'
    · subst hb
      simp [escQuotes, List.count_cons, ih, Ne.symm hc]
    · simp [escQuotes, hb, List.count_cons, ih]

lemma quoteField_getLast (s : Str) : (quoteField s).getLast? = some '"' := by
  have : quoteField s = ('"' :: escQuotes s) ++ ['"'] := by simp [quoteField]
  rw [this, List.getLast?_concat]

lemma foldl_push {α β : Type} (f : β → α) (l : List β) (init : List α) :
    l.foldl (fun acc row => acc ++ [f row]) init = init ++ l.map f := by
  induction l generalizing init with
  | nil => simp
  | cons x xs ih => simp [ih, List.append_assoc]

/-- The encoder's loop, characterised declaratively: header line followed by
one line per row, newline-joined. -/
lemma convertToCSV_cons (r0 : Row) (rest : List Row) :
    convertToCSV (r0 :: rest) =
      joinSep ['\n']
        (joinSep [','] (headersOf r0) :: (r0 :: rest).map (rowLine (headersOf r0))) := by
  simp [convertToCSV, foldl_push]

/-- C5: in the encoded document of a non-empty row sequence, every data
field is wrapped in double quotes; quote-escaping doubles exactly the
embedded double quotes (it is undone by collapsing doubled quotes, doubles
the quote count, and leaves every other character count unchanged); and the
header line and the row lines are joined by single newlines, with nothing
appended after the last line. -/
theorem csv_quoting_and_line_joining :
    (∀ s : Str, unescQuotes (escQuotes s) = s) ∧
    (∀ s : Str, (escQuotes s).count '"' = 2 * s.count '"') ∧
    (∀ (s : Str) (c : Char), c ≠ '"' → (escQuotes s).count c = s.count c) ∧
    (∀ s : Str, (quoteField s).head? = some '"' ∧ (quoteField s).getLast? = some '"') ∧
    (∀ (r0 : Row) (rest : List Row),
      convertToCSV (r0 :: rest) =
        joinSep ['\n']
          (joinSep [','] (headersOf r0) ::
            (r0 :: rest).map (rowLine (headersOf r0)))) :=
  ⟨unescQuotes_escQuotes, count_escQuotes_quote, count_escQuotes_other,
   fun s => ⟨rfl, quoteField_getLast s⟩, convertToCSV_cons⟩

theorem csv_quoting_and_line_joining_witness :
    (escQuotes "a\"b".toList).count 'a' = ("a\"b".toList).count 'a' ∧
    unescQuotes (escQuotes "a\"b".toList) = "a\"b".toList ∧
    (quoteField "a\"b".toList).getLast? = some '"' :=
  ⟨csv_quoting_and_line_joining.2.2.1 _ 'a' (by decide),
   csv_quoting_and_line_joining.1 _,
   (csv_quoting_and_line_joining.2.2.2.1 _).2⟩

/-! ## C6: absent fields render as the literal string "undefined" -/

lemma containsSub_joinSep (sep : Str) (parts : List Str) (x : Str)
    (hx : x ∈ parts) : containsSub x (joinSep sep parts) := by
  induction parts with
  | nil => cases hx
  | cons p ps ih =>
    cases ps with
    | nil =>
      have hxp : x = p := List.mem_singleton.mp hx
      subst hxp
      exact ⟨[], [], by simp [joinSep]⟩
    | cons q ps' =>
      rcases List.mem_cons.mp hx with rfl | hx'
      · exact ⟨[], sep ++ joinSep sep (q :: ps'), by simp [joinSep]⟩
      · obtain ⟨a, b, hab⟩ := ih hx'
        exact ⟨p ++ sep ++ a, b, by simp [joinSep, hab]⟩

lemma containsSub_of_containsSub {x y z : Str}
    (h1 : containsSub x y) (h2 : containsSub y z) : containsSub x z := by
  obtain ⟨a, b, rfl⟩ := h1
  obtain ⟨p, q, rfl⟩ := h2
  exact ⟨p ++ a, b ++ q, by simp⟩

/-- C6: for a non-empty row sequence, a row in which a declared column is
absent renders that field as the quoted literal string `"undefined"`, and
that quoted literal occurs in the encoded document. -/
theorem absent_field_renders_undefined (r0 : Row) (rest : List Row) (r : Row)
    (h : Str) (hr : r ∈ r0 :: rest) (hh : h ∈ headersOf r0)
    (hmiss : jsLookup r h = none) :
    quoteField (cellString r h) = '"' :: ("undefined".toList ++ ['"']) ∧
    containsSub ('"' :: ("undefined".toList ++ ['"']))
      (convertToCSV (r0 :: rest)) := by
  have hcell : cellString r h = "undefined".toList := by
    simp [cellString, hmiss]
  have hq : quoteField (cellString r h) = '"' :: ("undefined".toList ++ ['"']) := by
    rw [hcell]; rfl
  refine ⟨hq, ?_⟩
  have hmem : quoteField (cellString r h) ∈
      (headersOf r0).map (fun hh => quoteField (cellString r hh)) :=
    List.mem_map_of_mem _ hh
  have h1 : containsSub (quoteField (cellString r h)) (rowLine (headersOf r0) r) :=
    containsSub_joinSep _ _ _ hmem
  have h2 : rowLine (headersOf r0) r ∈
      joinSep [','] (headersOf r0) :: (r0 :: rest).map (rowLine (headersOf r0)) :=
    List.mem_cons_of_mem _ (List.mem_map_of_mem _ hr)
  have h3 : containsSub (rowLine (headersOf r0) r) (convertToCSV (r0 :: rest)) := by
    rw [convertToCSV_cons]
    exact containsSub_joinSep _ _ _ h2
  rw [← hq]
  exact containsSub_of_containsSub h1 h3

theorem absent_field_renders_undefined_witness :
    containsSub ('"' :: ("undefined".toList ++ ['"']))
      (convertToCSV [[("a".toList, "1".toList)], []]) :=
  (absent_field_renders_undefined [("a".toList, "1".toList)] [[]] [] "a".toList
    (by simp) (by simp [headersOf]) rfl).2

/-! ## C2: the identifier extractor's marker selection -/

lemma jsIndexOf_append_first (l₁ l₂ : List Str) (x : Str) (h : x ∉ l₁) :
    jsIndexOf (l₁ ++ x :: l₂) x = some l₁.length := by
  induction l₁ with
  | nil => simp [jsIndexOf]
  | cons y ys ih =>
    have hy : y ≠ x := fun he => h (he ▸ List.mem_cons_self y ys)
    have hm : x ∉ ys := fun hm => h (List.mem_cons_of_mem _ hm)
    simp [jsIndexOf, hy, ih hm]

lemma jsIndexOf_mem (l : List Str) (x : Str) (i : Nat)
    (h : jsIndexOf l x = some i) : i < l.length ∧ l[i]? = some x := by
  induction l generalizing i with
  | nil => cases h
  | cons y ys ih =>
    by_cases hy : y = x
    · subst hy
      simp [jsIndexOf] at h
      subst h
      simp
    · simp [jsIndexOf, hy, Option.map_eq_some'] at h
      obtain ⟨j, hj, hji⟩ := h
      obtain ⟨hlt, hget⟩ := ih j hj
      subst hji
      refine ⟨by simpa using Nat.succ_lt_succ hlt, ?_⟩
      simpa using hget

lemma marker_mem_dropLast {l : List Str} {x : Str} {i : Nat}
    (h : jsIndexOf l x = some i) (hi : i + 1 < l.length) : x ∈ l.dropLast := by
  obtain ⟨hlen, hget⟩ := jsIndexOf_mem l x i h
  have : l.dropLast[i]? = some x := by
    rw [List.getElem?_dropLast, if_pos (by omega)]
    exact hget
  exact List.getElem?_mem this

lemma splitSlash_ne_nil (s : Str) : splitSlash s ≠ [] := by
  cases s with
  | nil => simp [splitSlash]
  | cons c rest =>
    simp only [splitSlash]
    cases splitSlash rest with
    | nil => simp
    | cons p ps =>
      by_cases hc : c = '/' <;> simp [hc]

lemma fallbackLast_eq_getLast? (parts : List Str) (h : parts ≠ []) :
    fallbackLast parts = parts.getLast? := by
  have : 0 < parts.length := List.length_pos.mpr h
  simp [fallbackLast, this]

lemma extractAfterId_decomp (l₁ : List Str) (x : Str) (l₂ : List Str)
    (hn : idMarker ∉ l₁) :
    extractAfterId (l₁ ++ idMarker :: x :: l₂) = some x := by
  unfold extractAfterId
  rw [jsIndexOf_append_first _ _ _ hn]
  dsimp only
  have hlt : l₁.length + 1 < (l₁ ++ idMarker :: x :: l₂).length := by
    simp [List.length_append]
  rw [if_pos hlt, List.getElem?_append_right (by omega)]
  simp

lemma extractAfterId_noId (parts : List Str) (hi : idMarker ∉ parts.dropLast)
    (hne : parts ≠ []) : extractAfterId parts = parts.getLast? := by
  unfold extractAfterId
  cases hcase : jsIndexOf parts idMarker with
  | none =>
    dsimp only
    exact fallbackLast_eq_getLast? parts hne
  | some j =>
    dsimp only
    by_cases hj : j + 1 < parts.length
    · exact absurd (marker_mem_dropLast hcase hj) hi
    · rw [if_neg hj]
      exact fallbackLast_eq_getLast? parts hne

lemma extractFromParts_skip_profiles (parts : List Str)
    (hp : profilesMarker ∉ parts.dropLast) :
    extractFromParts parts = extractAfterId parts := by
  unfold extractFromParts
  cases hcase : jsIndexOf parts profilesMarker with
  | none => rfl
  | some i =>
    dsimp only
    by_cases hi : i + 1 < parts.length
    · exact absurd (marker_mem_dropLast hcase hi) hp
    · rw [if_neg hi]

/-- C2 fails on the code: on the reference `"profiles/a/id/b"` the last
marker is `"id"`, whose following segment is `"b"`, but the extractor
returns `"a"`, the segment after the *first* marker — `indexOf` selects the
first occurrence and `'profiles'` is checked before `'id'`. -/
theorem extractIdentifier_uses_first_marker_not_last :
    extractIdentifier "profiles/a/id/b".toList = some "a".toList ∧
    extractIdentifierSpec "profiles/a/id/b".toList = some "b".toList ∧
    extractIdentifier "profiles/a/id/b".toList ≠
      extractIdentifierSpec "profiles/a/id/b".toList := by
  refine ⟨by decide, by decide, by decide⟩

/-- C2 amended: the extractor trims the input, drops a single trailing path
separator and splits on separators; if `"profiles"` occurs with a following
segment it returns the segment immediately following the *first* such
occurrence; otherwise, if `"id"` occurs with a following segment, the
segment immediately following the *first* `"id"`; otherwise the final
segment, which may be empty.  No URL parsing occurs, so the behaviour is
the same whether or not the input parses as a structured URL. -/
theorem extractIdentifier_first_marker_semantics (url : Str) :
    (∀ (l₁ : List Str) (x : Str) (l₂ : List Str),
      splitSlash (dropTrailingSlash (jsTrim url)) = l₁ ++ profilesMarker :: x :: l₂ →
      profilesMarker ∉ l₁ →
      extractIdentifier url = some x) ∧
    (profilesMarker ∉ (splitSlash (dropTrailingSlash (jsTrim url))).dropLast →
      ∀ (l₁ : List Str) (x : Str) (l₂ : List Str),
        splitSlash (dropTrailingSlash (jsTrim url)) = l₁ ++ idMarker :: x :: l₂ →
        idMarker ∉ l₁ →
        extractIdentifier url = some x) ∧
    (profilesMarker ∉ (splitSlash (dropTrailingSlash (jsTrim url))).dropLast →
      idMarker ∉ (splitSlash (dropTrailingSlash (jsTrim url))).dropLast →
      extractIdentifier url = (splitSlash (dropTrailingSlash (jsTrim url))).getLast?) := by
  refine ⟨?_, ?_, ?_⟩
  · intro l₁ x l₂ hd hn
    rw [extractIdentifier, hd]
    unfold extractFromParts
    rw [jsIndexOf_append_first _ _ _ hn]
    dsimp only
    have hlt : l₁.length + 1 < (l₁ ++ profilesMarker :: x :: l₂).length := by
      simp [List.length_append]
    rw [if_pos hlt, List.getElem?_append_right (by omega)]
    simp
  · intro hp l₁ x l₂ hd hn
    rw [extractIdentifier, extractFromParts_skip_profiles _ hp, hd]
    exact extractAfterId_decomp _ _ _ hn
  · intro hp hi
    rw [extractIdentifier, extractFromParts_skip_profiles _ hp]
    exact extractAfterId_noId _ hi (splitSlash_ne_nil _)

theorem extractIdentifier_first_marker_semantics_witness :
    extractIdentifier "https://example.com/profiles/76561197960287930".toList
      = some "76561197960287930".toList ∧
    extractIdentifier "steamcommunity.com/id/myalias".toList
      = some "myalias".toList ∧
    extractIdentifier "barealias".toList = some "barealias".toList :=
  ⟨(extractIdentifier_first_marker_semantics
      "https://example.com/profiles/76561197960287930".toList).1
      ["https:".toList, "".toList, "example.com".toList]
      "76561197960287930".toList [] (by decide) (by decide),
   (extractIdentifier_first_marker_semantics
      "steamcommunity.com/id/myalias".toList).2.1 (by decide)
      ["steamcommunity.com".toList] "myalias".toList [] (by decide) (by decide),
   ((extractIdentifier_first_marker_semantics "barealias".toList).2.2
      (by decide) (by decide)).trans (by decide)⟩
